import Mathlib

/-!
Shallow embedding of `src/main.py` (spotify-list-maker): the caching,
deduplication and batching engine.  Pure data is modelled directly; the
stateful pipeline is modelled by explicit state passing over an `LM`
state record, with remote calls and ledger writes recorded as an event
trace.  Exceptions are modelled with `Option PyError` / `Except PyError`.
-/

namespace SLM

/-- Python exceptions that can arise in the modelled code paths.
`noGenre` is `NoGenreException`; `integrityError` is the uniqueness
violation raised by the ledger insert; `storageError` stands for any
other storage failure during insert-and-commit; `remoteError` is a
failed remote catalog call. -/
inductive PyError where
  | attributeError
  | indexError
  | noGenre
  | remoteError
  | integrityError
  | storageError
deriving DecidableEq

/-- Observable side effects of the engine, in program order: remote
playlist creation, the remote batch append (`sp.playlist_add_items`),
and the two ledger writes of `Database`. -/
inductive Event where
  | createPlaylist (name : String)
  | appendItems (playlistId : String) (urns : List String)
  | recordPlaylistTrack (playlistId trackId : String)
  | recordGenreless (trackId : String)
deriving DecidableEq

/-- Length of the batch carried by an `appendItems` event (0 for the
other events); used to state the batch cap. -/
def Event.appendLen : Event → Nat
  | Event.appendItems _ urns => urns.length
  | _ => 0

/-- Does this event append a batch containing the given URN? -/
def Event.isAppendWith (u : String) : Event → Bool
  | Event.appendItems _ urns => urns.contains u
  | _ => false

/-- Number of remote append calls whose batch contains the given URN. -/
def countAppendsWith (u : String) (evs : List Event) : Nat :=
  evs.countP (Event.isAppendWith u)

/-- Python's `str.strip()` (no argument): remove leading and trailing
whitespace.  Modelled over the string's character list so that proofs
can evaluate it. -/
def pyStrip (s : String) : String :=
  String.mk
    (((s.data.dropWhile Char.isWhitespace).reverse.dropWhile Char.isWhitespace).reverse)

/-- Python's `str.startswith(p)`, modelled over character lists. -/
def pyStarts (s p : String) : Bool := p.data.isPrefixOf s.data

/-- `SpotifyURNMixin.urn`: the string `f"spotify:{self.urn_type}:{self.id_}"`. -/
def spotify_urn (urn_type id_ : String) : String :=
  "spotify:" ++ urn_type ++ ":" ++ id_

/-- `Artist.__init__`: id, name and genres extracted from the API response. -/
structure Artist where
  id_ : String
  name : String
  genres : List String
deriving DecidableEq

/-- `Album.__init__`: id, name and genres extracted from the API response. -/
structure Album where
  id_ : String
  name : String
  genres : List String
deriving DecidableEq

def Artist.urn (a : Artist) : String := spotify_urn "artist" a.id_

def Album.urn (a : Album) : String := spotify_urn "album" a.id_

/-- `Track`: the fields set by `Track.__init__` (the cache references the
object also stores are modelled as the threaded cache state instead). -/
structure Track where
  id_ : String
  title : String
  artist : Artist
  album : Album
  genres : List String
deriving DecidableEq

def Track.urn (t : Track) : String := spotify_urn "track" t.id_

/-- `Track.__set_genres`: the album's genre list if truthy (non-empty),
otherwise the artist's genre list. -/
def Track.set_genres (album : Album) (artist : Artist) : List String :=
  if album.genres.isEmpty then artist.genres else album.genres

/-- `Playlist`: id and name (both `.strip()`ed on construction) and the
pending buffer `tracks_to_add`.  The `sp` handle and the flush callback
are modelled at the call sites. -/
structure Playlist where
  id_ : String
  name : String
  tracks_to_add : List Track
deriving DecidableEq

def Playlist.urn (p : Playlist) : String := spotify_urn "playlist" p.id_

/-- The persistent `Database` ledger: the `playlist_track` table keyed by
the unique pair (playlist_id, track_id) and the `genreless_track` table
keyed by the unique track_id. -/
structure DB where
  playlistTracks : List (String × String)
  genrelessTracks : List String
deriving DecidableEq

def DB.empty : DB := { playlistTracks := [], genrelessTracks := [] }

/-- The body of `Database.record_playlist_track`'s try-block:
`session.add` + `session.commit`.  `fail` is an oracle for a storage
failure outside the uniqueness constraint; the UNIQUE(playlist_id,
track_id) constraint raises an integrity error on a duplicate pair. -/
def DB.insert_playlist_track (db : DB) (pid tid : String) (fail : Bool) :
    Except PyError DB :=
  if fail then Except.error PyError.storageError
  else if db.playlistTracks.contains (pid, tid) then
    Except.error PyError.integrityError
  else Except.ok { db with playlistTracks := db.playlistTracks ++ [(pid, tid)] }

/-- `Database.record_playlist_track`: the bare `except: pass` swallows
every exception of the insert-and-commit; an uncommitted session leaves
the store unchanged. -/
def DB.record_playlist_track (db : DB) (pid tid : String) (fail : Bool) : DB :=
  match db.insert_playlist_track pid tid fail with
  | Except.ok db2 => db2
  | Except.error _ => db

/-- `Database.check_playlist_track_exists`: whether a (playlist_id,
track_id) row exists. -/
def DB.check_playlist_track_exists (db : DB) (pid tid : String) : Bool :=
  db.playlistTracks.contains (pid, tid)

/-- The body of `Database.record_genreless_track`'s try-block, with the
UNIQUE(track_id) constraint and the same storage-failure oracle. -/
def DB.insert_genreless_track (db : DB) (tid : String) (fail : Bool) :
    Except PyError DB :=
  if fail then Except.error PyError.storageError
  else if db.genrelessTracks.contains tid then
    Except.error PyError.integrityError
  else Except.ok { db with genrelessTracks := db.genrelessTracks ++ [tid] }

/-- `Database.record_genreless_track`: bare `except: pass` around the
insert-and-commit. -/
def DB.record_genreless_track (db : DB) (tid : String) (fail : Bool) : DB :=
  match db.insert_genreless_track tid fail with
  | Except.ok db2 => db2
  | Except.error _ => db

/-- The remote catalog: artist and album metadata by id, and the id the
service assigns when a playlist with a given name is created
(`user_playlist_create`). -/
structure Remote where
  artists : List (String × Artist)
  albums : List (String × Album)
  playlistIdFor : String → String

/-- `ListMaker.__flush_callback`: `for t in tracks:
record_playlist_track(playlist_id, t.id_)`, returning the updated ledger
and the ledger-write events in loop order. -/
def flush_callback (db : DB) (pid : String) : List Track → DB × List Event
  | [] => (db, [])
  | t :: ts =>
    let rest := flush_callback (db.record_playlist_track pid t.id_ false) pid ts
    (rest.1, Event.recordPlaylistTrack pid t.id_ :: rest.2)

/-- `Playlist.flush`: if the buffer is truthy, send all buffered tracks'
URNs in one `playlist_add_items` call, then invoke the flush callback
with the playlist id and the buffered track list.  Note: the buffer is
NOT cleared here (the playlist is returned unchanged); `add_track`
clears it after its capacity-triggered flush. -/
def Playlist.flush (pl : Playlist) (db : DB) : Playlist × DB × List Event :=
  if pl.tracks_to_add.length ≠ 0 then
    let cb := flush_callback db pl.id_ pl.tracks_to_add
    (pl, cb.1,
      Event.appendItems pl.id_ (pl.tracks_to_add.map Track.urn) :: cb.2)
  else (pl, db, [])

/-- `Playlist.add_track`: append to the buffer; when the buffer length
reaches exactly 100, flush and then assign `tracks_to_add = []`. -/
def Playlist.add_track (pl : Playlist) (db : DB) (t : Track) :
    Playlist × DB × List Event :=
  let pl2 : Playlist := { pl with tracks_to_add := pl.tracks_to_add ++ [t] }
  if pl2.tracks_to_add.length = 100 then
    let fr := pl2.flush db
    ({ fr.1 with tracks_to_add := [] }, fr.2.1, fr.2.2)
  else (pl2, db, [])

/-- `ArtistCache.__getitem__` with `ArtistCache._fetch_item` on a miss:
look the key up in the memo, otherwise fetch `sp.artist(key)` from the
remote (a failed remote call propagates) and memoize it. -/
def artist_cache_get (r : Remote) (c : List (String × Artist)) (key : String) :
    Except PyError (Artist × List (String × Artist)) :=
  match c.lookup key with
  | some a => Except.ok (a, c)
  | none =>
    match r.artists.lookup key with
    | some a => Except.ok (a, c ++ [(key, a)])
    | none => Except.error PyError.remoteError

/-- `AlbumCache.__getitem__` with `AlbumCache._fetch_item` on a miss. -/
def album_cache_get (r : Remote) (c : List (String × Album)) (key : String) :
    Except PyError (Album × List (String × Album)) :=
  match c.lookup key with
  | some a => Except.ok (a, c)
  | none =>
    match r.albums.lookup key with
    | some a => Except.ok (a, c ++ [(key, a)])
    | none => Except.error PyError.remoteError

/-- A raw saved-track entry as accessed by `Track.__init__`:
`item["track"]["id"]` and `item["track"]["name"]` (None when null, so
`.strip()` raises AttributeError), the list of artist ids
(`item["track"]["artists"]`, indexed at 0), and the album id
(`item["track"]["album"]["id"]`). -/
structure RawTrack where
  id : Option String
  name : Option String
  artists : List String
  album : Option String
deriving DecidableEq

/-- `Track.__init__`, in source order: strip the track id and title
(AttributeError on a null field), take `artists[0]` (IndexError on an
empty list), resolve the artist then the album through the caches, and
derive `genres` via `Track.__set_genres`. -/
def Track.init (r : Remote) (ac : List (String × Artist))
    (alc : List (String × Album)) (raw : RawTrack) :
    Except PyError (Track × List (String × Artist) × List (String × Album)) :=
  match raw.id with
  | none => Except.error PyError.attributeError
  | some rid =>
    match raw.name with
    | none => Except.error PyError.attributeError
    | some rname =>
      match raw.artists with
      | [] => Except.error PyError.indexError
      | aid :: _ =>
        match artist_cache_get r ac (pyStrip aid) with
        | Except.error e => Except.error e
        | Except.ok pa =>
          match raw.album with
          | none => Except.error PyError.attributeError
          | some alid =>
            match album_cache_get r alc (pyStrip alid) with
            | Except.error e => Except.error e
            | Except.ok pb =>
              Except.ok
                ({ id_ := pyStrip rid, title := pyStrip rname, artist := pa.1,
                   album := pb.1,
                   genres := Track.set_genres pb.1 pa.1 }, pa.2, pb.2)

/-- A raw playlist entry as accessed by `Playlist.__init__`. -/
structure RawPlaylist where
  id : String
  name : String
deriving DecidableEq

/-- The fixed playlist name beginning `"Liked Songs:"`
(`self.playlist_prefix`). -/
def playlist_label : String := "Liked Songs:"

/-- Insert-or-overwrite into a Python-dict association list: overwrite in
place when the key is present, append when it is new (dict insertion
order). -/
def assocSet (k : String) (v : Playlist) :
    List (String × Playlist) → List (String × Playlist)
  | [] => [(k, v)]
  | (k2, v2) :: rest =>
    if k2 = k then (k, v) :: rest else (k2, v2) :: assocSet k v rest

/-- The whole mutable state of one `ListMaker` run: the persistent
ledger, the three caches, and the trace of observable effects. -/
structure LM where
  db : DB
  playlist_cache : List (String × Playlist)
  artist_cache : List (String × Artist)
  album_cache : List (String × Album)
  events : List Event
deriving DecidableEq

/-- `PlaylistCache.__getitem__` with `PlaylistCache._fetch_item` on a
miss: create the playlist remotely (name = key) and memoize the wrapped
`Playlist`. -/
def playlist_cache_get (r : Remote) (st : LM) (key : String) : Playlist × LM :=
  match st.playlist_cache.lookup key with
  | some pl => (pl, st)
  | none =>
    let pl : Playlist :=
      { id_ := pyStrip (r.playlistIdFor key), name := pyStrip key, tracks_to_add := [] }
    (pl, { st with playlist_cache := st.playlist_cache ++ [(key, pl)],
                   events := st.events ++ [Event.createPlaylist key] })

/-- The per-genre loop body of `ListMaker.__add_track_to_playlists`:
compute the playlist name, resolve/create it through the cache, and add
the track only when the ledger has no record of the pair.  `add_track`
mutates the cached playlist object, modelled by writing it back. -/
def add_track_genres (r : Remote) (t : Track) : LM → List String → LM
  | st, [] => st
  | st, g :: gs =>
    let name := playlist_label ++ " " ++ g
    let got := playlist_cache_get r st name
    let pl := got.1
    let st1 := got.2
    let st2 :=
      if st1.db.check_playlist_track_exists pl.id_ t.id_ then st1
      else
        let a := pl.add_track st1.db t
        { st1 with db := a.2.1,
                   playlist_cache := assocSet name a.1 st1.playlist_cache,
                   events := st1.events ++ a.2.2 }
    add_track_genres r t st2 gs

/-- `ListMaker.__add_track_to_playlists`: raise `NoGenreException` when
the track's genre list is falsy, otherwise run the per-genre loop. -/
def add_track_to_playlists (r : Remote) (st : LM) (t : Track) : Except PyError LM :=
  if t.genres.isEmpty then Except.error PyError.noGenre
  else Except.ok (add_track_genres r t st t.genres)

/-- `ListMaker.__parse_liked_songs`: for each saved-track entry construct
a `Track` (construction failures propagate: they occur before the try
block) and fan it out; only `NoGenreException` is caught, recording the
track as genreless and continuing.  Returns the reached state and the
escaped exception, if any. -/
def parse_liked_songs (r : Remote) (st : LM) : List RawTrack → LM × Option PyError
  | [] => (st, none)
  | raw :: rest =>
    match Track.init r st.artist_cache st.album_cache raw with
    | Except.error e => (st, some e)
    | Except.ok tac =>
      let t := tac.1
      let st1 := { st with artist_cache := tac.2.1, album_cache := tac.2.2 }
      match add_track_to_playlists r st1 t with
      | Except.ok st2 => parse_liked_songs r st2 rest
      | Except.error PyError.noGenre =>
        let st2 :=
          { st1 with db := st1.db.record_genreless_track t.id_ false,
                     events := st1.events ++ [Event.recordGenreless t.id_] }
        parse_liked_songs r st2 rest
      | Except.error e => (st1, some e)

/-- `ListMaker.__generate_liked_playlists_map`: wrap each listed raw
playlist, and cache (by name) those whose stripped name starts with the
fixed label. -/
def generate_liked_playlists_map (st : LM) : List RawPlaylist → LM
  | [] => st
  | rawPl :: rest =>
    let pl : Playlist :=
      { id_ := pyStrip rawPl.id, name := pyStrip rawPl.name, tracks_to_add := [] }
    let st2 :=
      if pyStarts (pyStrip pl.name) playlist_label then
        { st with playlist_cache := assocSet pl.name pl st.playlist_cache }
      else st
    generate_liked_playlists_map st2 rest

/-- The attributes resolvable on a `PlaylistCache` instance: the instance
attributes set in `SpotifyCache.__init__` / `set_connection` plus the
methods of `SpotifyCache` (Python attribute lookup walks instance, then
class, then bases; `object`/`ABC` add nothing relevant). -/
def SpotifyCache.instanceAttrs : List String :=
  ["_cache", "_callback", "sp", "_user_id", "set_connection", "keys",
   "__getitem__", "__setitem__", "_fetch_item"]

/-- The loop body `ListMaker.__flush` would run per cached playlist if
the iteration succeeded: flush each cached playlist in insertion order,
writing the (unchanged) playlist object back. -/
def flush_cached : LM → List (String × Playlist) → LM
  | st2, [] => st2
  | st2, (k, pl) :: rest =>
    let fr := pl.flush st2.db
    flush_cached
      { st2 with db := fr.2.1,
                 playlist_cache := assocSet k fr.1 st2.playlist_cache,
                 events := st2.events ++ fr.2.2 } rest

/-- `ListMaker.__flush`: `for _, pl in self.playlist_cache.items()`.
Attribute lookup of `items` on the `PlaylistCache` instance precedes the
loop; when the attribute is absent the lookup raises `AttributeError`
and no playlist is flushed. -/
def ListMaker.flush (st : LM) : LM × Option PyError :=
  if SpotifyCache.instanceAttrs.contains "items" then
    (flush_cached st st.playlist_cache, none)
  else (st, some PyError.attributeError)

/-- `ListMaker.build_playlists` driven by `main()`: phase 1 over the
paginated playlist listing, phase 2 over the paginated saved-track
listing, phase 3 the final flush.  Returns the reached state (whose `db`
is the persistent ledger surviving the run) and the escaped exception,
if any. -/
def ListMaker.run (r : Remote) (rawPls : List RawPlaylist)
    (rawTracks : List RawTrack) (db : DB) : LM × Option PyError :=
  let st0 : LM :=
    { db := db, playlist_cache := [], artist_cache := [], album_cache := [],
      events := [] }
  let st1 := generate_liked_playlists_map st0 rawPls
  let p := parse_liked_songs r st1 rawTracks
  match p.2 with
  | some e => (p.1, some e)
  | none => ListMaker.flush p.1

/-! ### Concrete example values used by witnesses and counterexamples -/

def artistRock : Artist := { id_ := "ar1", name := "Artist One", genres := ["rock"] }

def albumBare : Album := { id_ := "al1", name := "Album One", genres := [] }

def trackA : Track :=
  { id_ := "t1", title := "Song One", artist := artistRock, album := albumBare,
    genres := ["rock"] }

def plA : Playlist := { id_ := "p1", name := "Liked Songs: rock", tracks_to_add := [trackA] }

def plEmpty : Playlist := { id_ := "p1", name := "Liked Songs: rock", tracks_to_add := [] }

def remote0 : Remote :=
  { artists := [("ar1", artistRock)], albums := [("al1", albumBare)],
    playlistIdFor := fun n => "pid-" ++ n }

def rawT1 : RawTrack :=
  { id := some "t1", name := some "Song One", artists := ["ar1"], album := some "al1" }

/-! ### Helper lemmas -/

/-- The events produced by the flush callback are exactly one ledger
write per track, in order. -/
theorem flush_callback_events (pid : String) :
    ∀ (ts : List Track) (db : DB),
      (flush_callback db pid ts).2 = ts.map fun t => Event.recordPlaylistTrack pid t.id_
  | [], _ => rfl
  | t :: ts, db => by
    simp [flush_callback, flush_callback_events pid ts]

/-- `flush` never modifies the playlist object itself. -/
theorem flush_fst (pl : Playlist) (db : DB) : (pl.flush db).1 = pl := by
  unfold Playlist.flush
  split <;> rfl

/-- The event trace of a flush on a non-empty buffer: the single append
followed by one ledger write per buffered track. -/
theorem flush_events (pl : Playlist) (db : DB) (h : pl.tracks_to_add ≠ []) :
    (pl.flush db).2.2 =
      Event.appendItems pl.id_ (pl.tracks_to_add.map Track.urn)
        :: pl.tracks_to_add.map (fun t => Event.recordPlaylistTrack pl.id_ t.id_) := by
  have hlen : pl.tracks_to_add.length ≠ 0 := by
    simpa [List.length_eq_zero] using h
  simp [Playlist.flush, hlen, flush_callback_events]

/-- A flush on an empty buffer is a no-op. -/
theorem flush_empty (pl : Playlist) (db : DB) (h : pl.tracks_to_add = []) :
    pl.flush db = (pl, db, []) := by
  simp [Playlist.flush, h]

/-- A successful `Track.__init__` can only have happened on an entry
with a present track id, a present title, a non-empty artists list and a
present album id, and the constructed track derives its genres from its
resolved album and artist via `Track.__set_genres`. -/
theorem track_init_ok_shape (r : Remote) (ac : List (String × Artist))
    (alc : List (String × Album)) (raw : RawTrack)
    (out : Track × List (String × Artist) × List (String × Album))
    (h : Track.init r ac alc raw = Except.ok out) :
    raw.id.isSome = true ∧ raw.name.isSome = true ∧
    raw.artists.isEmpty = false ∧ raw.album.isSome = true ∧
    out.1.genres = Track.set_genres out.1.album out.1.artist := by
  cases hid : raw.id with
  | none => simp [Track.init, hid] at h
  | some rid =>
    cases hnm : raw.name with
    | none => simp [Track.init, hid, hnm] at h
    | some rname =>
      cases har : raw.artists with
      | nil => simp [Track.init, hid, hnm, har] at h
      | cons aid arest =>
        cases hga : artist_cache_get r ac (pyStrip aid) with
        | error e2 => simp [Track.init, hid, hnm, har, hga] at h
        | ok pa =>
          cases hal : raw.album with
          | none => simp [Track.init, hid, hnm, har, hga, hal] at h
          | some alid =>
            cases hgb : album_cache_get r alc (pyStrip alid) with
            | error e2 => simp [Track.init, hid, hnm, har, hga, hal, hgb] at h
            | ok pb =>
              simp only [Track.init, hid, hnm, har, hga, hal, hgb,
                Except.ok.injEq] at h
              subst h
              exact ⟨by simp [hid], by simp [hnm], by simp [har], by simp [hal], rfl⟩

/-- Any error escaping `artist_cache_get` is a failed remote call. -/
theorem artist_cache_get_error (r : Remote) (c : List (String × Artist))
    (key : String) (e : PyError)
    (h : artist_cache_get r c key = Except.error e) : e = PyError.remoteError := by
  unfold artist_cache_get at h
  cases hc : c.lookup key with
  | some a => rw [hc] at h; exact Except.noConfusion h
  | none =>
    rw [hc] at h
    cases hr : r.artists.lookup key with
    | some a => rw [hr] at h; exact Except.noConfusion h
    | none =>
      rw [hr] at h
      injection h with h2
      exact h2.symm

/-- Any error escaping `album_cache_get` is a failed remote call. -/
theorem album_cache_get_error (r : Remote) (c : List (String × Album))
    (key : String) (e : PyError)
    (h : album_cache_get r c key = Except.error e) : e = PyError.remoteError := by
  unfold album_cache_get at h
  cases hc : c.lookup key with
  | some a => rw [hc] at h; exact Except.noConfusion h
  | none =>
    rw [hc] at h
    cases hr : r.albums.lookup key with
    | some a => rw [hr] at h; exact Except.noConfusion h
    | none =>
      rw [hr] at h
      injection h with h2
      exact h2.symm

/-- The errors `Track.__init__` can raise are AttributeError, IndexError
or a failed remote call — never the genreless condition. -/
theorem track_init_error_not_genreless (r : Remote) (ac : List (String × Artist))
    (alc : List (String × Album)) (raw : RawTrack) (e : PyError)
    (h : Track.init r ac alc raw = Except.error e) : e ≠ PyError.noGenre := by
  cases hid : raw.id with
  | none =>
    simp only [Track.init, hid, Except.error.injEq] at h
    subst h; decide
  | some rid =>
    cases hnm : raw.name with
    | none =>
      simp only [Track.init, hid, hnm, Except.error.injEq] at h
      subst h; decide
    | some rname =>
      cases har : raw.artists with
      | nil =>
        simp only [Track.init, hid, hnm, har, Except.error.injEq] at h
        subst h; decide
      | cons aid arest =>
        cases hga : artist_cache_get r ac (pyStrip aid) with
        | error e2 =>
          simp only [Track.init, hid, hnm, har, hga, Except.error.injEq] at h
          subst h
          rw [artist_cache_get_error r ac (pyStrip aid) e2 hga]
          decide
        | ok pa =>
          cases hal : raw.album with
          | none =>
            simp only [Track.init, hid, hnm, har, hga, hal, Except.error.injEq] at h
            subst h; decide
          | some alid =>
            cases hgb : album_cache_get r alc (pyStrip alid) with
            | error e2 =>
              simp only [Track.init, hid, hnm, har, hga, hal, hgb,
                Except.error.injEq] at h
              subst h
              rw [album_cache_get_error r alc (pyStrip alid) e2 hgb]
              decide
            | ok pb =>
              simp [Track.init, hid, hnm, har, hga, hal, hgb] at h

/-! ### Claim theorems -/

/-- C2 (counterexample): the claim says that after `flush()` on a
non-empty buffer the pending buffer is empty; flushing a playlist whose
buffer holds one track leaves the buffer non-empty (it still holds that
track). -/
theorem flush_clear_cex :
    (plA.flush DB.empty).1.tracks_to_add = [trackA] ∧
      (plA.flush DB.empty).1.tracks_to_add.isEmpty = false := by
  constructor <;> rfl

/-- C2 (amended): `flush()` on a non-empty buffer issues exactly one
remote append carrying all buffered tracks' URNs in insertion order and
then invokes the flush callback with the playlist id and that exact
track list; but the pending buffer is NOT cleared — the playlist is
returned unchanged (`add_track` performs the clearing after its
capacity-triggered flush).  On an empty buffer `flush()` performs no
remote call and no callback. -/
theorem flush_spec_amended (pl : Playlist) (db : DB) :
    (pl.flush db).1 = pl ∧
    (pl.tracks_to_add ≠ [] →
      (pl.flush db).2.2 =
        Event.appendItems pl.id_ (pl.tracks_to_add.map Track.urn)
          :: pl.tracks_to_add.map (fun t => Event.recordPlaylistTrack pl.id_ t.id_)) ∧
    (pl.tracks_to_add = [] → pl.flush db = (pl, db, [])) :=
  ⟨flush_fst pl db, flush_events pl db, flush_empty pl db⟩

/-- C2 witness: the amended claim evaluated on a playlist whose buffer
holds one concrete track. -/
theorem flush_spec_amended_witness :
    (plA.flush DB.empty).2.2 =
      Event.appendItems "p1" ["spotify:track:t1"]
        :: [Event.recordPlaylistTrack "p1" "t1"] :=
  (flush_spec_amended plA DB.empty).2.1 (List.cons_ne_nil trackA [])

/-- C5: in every flush of a non-empty buffer the remote append for the
batch comes first in the effect trace, and the ledger writes that follow
are exactly one record per flushed track in batch order — no ledger
write for a batch precedes its remote append. -/
theorem ledger_write_after_append (pl : Playlist) (db : DB)
    (h : pl.tracks_to_add ≠ []) :
    (pl.flush db).2.2.head? =
      some (Event.appendItems pl.id_ (pl.tracks_to_add.map Track.urn)) ∧
    (pl.flush db).2.2.tail =
      pl.tracks_to_add.map (fun t => Event.recordPlaylistTrack pl.id_ t.id_) := by
  rw [flush_events pl db h]
  exact ⟨rfl, rfl⟩

/-- C5 witness: the ordering evaluated on a playlist whose buffer holds
one concrete track. -/
theorem ledger_write_after_append_witness :
    (plA.flush DB.empty).2.2.head? =
      some (Event.appendItems "p1" ["spotify:track:t1"]) :=
  (ledger_write_after_append plA DB.empty (List.cons_ne_nil trackA [])).1

/-- C7: the genre list of a constructed `Track` is the album's genre
list when that is non-empty (even when the artist's differs), otherwise
the artist's genre list; and every successful `Track.__init__` derives
its `genres` field this way from its resolved album and artist. -/
theorem genre_fallback (al : Album) (ar : Artist) :
    (al.genres ≠ [] → Track.set_genres al ar = al.genres) ∧
    (al.genres = [] → Track.set_genres al ar = ar.genres) ∧
    (∀ (r : Remote) (ac : List (String × Artist)) (alc : List (String × Album))
       (raw : RawTrack) out, Track.init r ac alc raw = Except.ok out →
         out.1.genres = Track.set_genres out.1.album out.1.artist) := by
  refine ⟨?_, ?_, ?_⟩
  · intro h
    have : al.genres.isEmpty = false := by
      cases hg : al.genres with
      | nil => exact absurd hg h
      | cons a l => rfl
    simp [Track.set_genres, this]
  · intro h
    simp [Track.set_genres, h]
  · intro r ac alc raw out h
    exact (track_init_ok_shape r ac alc raw out h).2.2.2.2

/-- C7 witness: the fallback evaluated on a concrete album with genres
and on a concrete album without genres. -/
theorem genre_fallback_witness :
    Track.set_genres { id_ := "alX", name := "X", genres := ["shoegaze"] } artistRock
        = ["shoegaze"] ∧
    Track.set_genres albumBare artistRock = ["rock"] :=
  ⟨(genre_fallback { id_ := "alX", name := "X", genres := ["shoegaze"] } artistRock).1
      (List.cons_ne_nil "shoegaze" []),
   (genre_fallback albumBare artistRock).2.1 rfl⟩

/-- C8 (counterexample): the exposed URN scheme is `spotify`, not
`catalog`: the URN of a concrete track with id `t1` is
`spotify:track:t1` and differs from `catalog:track:t1`. -/
theorem urn_scheme_cex :
    trackA.urn = "spotify:track:t1" ∧
      (trackA.urn == "catalog:track:t1") = false := by
  constructor <;> rfl

/-- C8 (amended): every domain entity exposes the URN
`spotify:{type}:{id}` with type naming the entity's kind (artist, album,
track, playlist), and a flush of a non-empty buffer passes to the remote
append call exactly the buffered tracks' URNs in this format. -/
theorem urn_format_spotify :
    (∀ a : Artist, a.urn = "spotify:artist:" ++ a.id_) ∧
    (∀ al : Album, al.urn = "spotify:album:" ++ al.id_) ∧
    (∀ t : Track, t.urn = "spotify:track:" ++ t.id_) ∧
    (∀ p : Playlist, p.urn = "spotify:playlist:" ++ p.id_) ∧
    (∀ (pl : Playlist) (db : DB), pl.tracks_to_add ≠ [] →
      (pl.flush db).2.2.head? =
        some (Event.appendItems pl.id_ (pl.tracks_to_add.map Track.urn))) :=
  ⟨fun _ => rfl, fun _ => rfl, fun _ => rfl, fun _ => rfl,
   fun pl db h => by rw [flush_events pl db h]; rfl⟩

/-- C8 witness: the amended format evaluated on a concrete track and a
concrete flush. -/
theorem urn_format_spotify_witness :
    trackA.urn = "spotify:track:" ++ "t1" ∧
    (plA.flush DB.empty).2.2.head? =
      some (Event.appendItems "p1" ["spotify:track:t1"]) :=
  ⟨urn_format_spotify.2.2.1 trackA,
   urn_format_spotify.2.2.2.2 plA DB.empty (List.cons_ne_nil trackA [])⟩

/-- C1: `ListMaker.__flush` iterates `self.playlist_cache.items()`, but
no `items` attribute exists on `PlaylistCache` (its base `SpotifyCache`
exposes only `keys`, `__getitem__`, `__setitem__`, `_fetch_item`,
`set_connection`), so the third phase raises `AttributeError` before
flushing anything: on every state it returns the state unchanged —
`flush()` is never called on any cached playlist and pending buffers
remain unsent. -/
theorem final_flush_attribute_error :
    (SpotifyCache.instanceAttrs.contains "items") = false ∧
    ∀ st : LM, ListMaker.flush st = (st, some PyError.attributeError) := by
  refine ⟨rfl, fun st => ?_⟩
  unfold ListMaker.flush
  rfl

/-- Running a sequence of `add_track` calls against one playlist,
collecting all emitted effects. -/
def add_tracks_seq (pl : Playlist) (db : DB) : List Track → Playlist × DB × List Event
  | [] => (pl, db, [])
  | t :: ts =>
    let a := pl.add_track db t
    let rest := add_tracks_seq a.1 a.2.1 ts
    (rest.1, rest.2.1, a.2.2 ++ rest.2.2)

/-- `add_track` when the appended buffer reaches exactly 100: flush the
full buffer, then clear it. -/
theorem add_track_eq_flush (pl : Playlist) (db : DB) (t : Track)
    (h100 : (pl.tracks_to_add ++ [t]).length = 100) :
    pl.add_track db t =
      ({ pl with tracks_to_add := [] },
       (Playlist.flush { pl with tracks_to_add := pl.tracks_to_add ++ [t] } db).2.1,
       (Playlist.flush { pl with tracks_to_add := pl.tracks_to_add ++ [t] } db).2.2) := by
  simp [Playlist.add_track, h100, flush_fst]

/-- `add_track` when the appended buffer stays below 100: just append. -/
theorem add_track_no_flush (pl : Playlist) (db : DB) (t : Track)
    (h100 : (pl.tracks_to_add ++ [t]).length ≠ 100) :
    pl.add_track db t = ({ pl with tracks_to_add := pl.tracks_to_add ++ [t] }, db, []) := by
  have h99 : pl.tracks_to_add.length ≠ 99 := by
    simp only [List.length_append, List.length_cons, List.length_nil] at h100
    omega
  simp [Playlist.add_track, h99]

/-- One `add_track` call from a buffer of at most 99 tracks leaves at
most 99 tracks buffered and sends only batches of at most 100 URNs. -/
theorem add_track_step (pl : Playlist) (db : DB) (t : Track)
    (h : pl.tracks_to_add.length ≤ 99) :
    (pl.add_track db t).1.tracks_to_add.length ≤ 99 ∧
    ∀ e ∈ (pl.add_track db t).2.2, e.appendLen ≤ 100 := by
  by_cases h100 : (pl.tracks_to_add ++ [t]).length = 100
  · rw [add_track_eq_flush pl db t h100]
    have hne :
        ({ pl with tracks_to_add := pl.tracks_to_add ++ [t] } : Playlist).tracks_to_add
          ≠ [] := by simp
    have hev := flush_events { pl with tracks_to_add := pl.tracks_to_add ++ [t] } db hne
    constructor
    · simp
    · intro e he
      rw [hev, List.mem_cons] at he
      rcases he with rfl | he
      · simpa [Event.appendLen] using Nat.le_of_eq h100
      · rcases List.mem_map.mp he with ⟨t2, _, rfl⟩
        simp [Event.appendLen]
  · rw [add_track_no_flush pl db t h100]
    constructor
    · simp only [List.length_append, List.length_cons, List.length_nil] at h100 ⊢
      omega
    · intro e he
      simp at he

/-- C4: from a buffer holding at most 99 tracks (in particular from the
empty buffer of a fresh playlist), any sequence of `add_track` calls
keeps the pending buffer at 99 tracks or fewer between calls — the
buffer never holds more than 100 tracks — every batch sent by a
triggered flush carries at most 100 URNs, and an `add_track` that makes
the length reach exactly 100 flushes and then clears the buffer. -/
theorem batch_cap (ts : List Track) (pl : Playlist) (db : DB)
    (h : pl.tracks_to_add.length ≤ 99) :
    (add_tracks_seq pl db ts).1.tracks_to_add.length ≤ 99 ∧
    (∀ e ∈ (add_tracks_seq pl db ts).2.2, e.appendLen ≤ 100) ∧
    (∀ t, pl.tracks_to_add.length = 99 → (pl.add_track db t).1.tracks_to_add = []) := by
  refine ⟨?_, ?_, ?_⟩
  · induction ts generalizing pl db with
    | nil => simpa [add_tracks_seq] using h
    | cons t ts ih =>
      have hs := add_track_step pl db t h
      simpa [add_tracks_seq] using ih _ _ hs.1
  · induction ts generalizing pl db with
    | nil => intro e he; simp [add_tracks_seq] at he
    | cons t ts ih =>
      intro e he
      have hs := add_track_step pl db t h
      simp only [add_tracks_seq, List.mem_append] at he
      rcases he with he | he
      · exact hs.2 e he
      · exact ih _ _ hs.1 e he
  · intro t h99
    have h100 : (pl.tracks_to_add ++ [t]).length = 100 := by
      simp [List.length_append, h99]
    rw [add_track_eq_flush pl db t h100]

/-- C4 witness: the cap evaluated on one `add_track` call against a
fresh empty playlist. -/
theorem batch_cap_witness :
    (add_tracks_seq plEmpty DB.empty [trackA]).1.tracks_to_add.length ≤ 99 :=
  (batch_cap [trackA] plEmpty DB.empty (by decide)).1

/-- C9: `record_playlist_track` and `record_genreless_track` never
raise: whatever storage failure the insert-and-commit hits (the
uniqueness violation or any other failure, as driven by the `fail`
oracle), it is swallowed and the call returns normally with the ledger
either extended by the one record or left exactly as it was; any failed
insert leaves the ledger unchanged. -/
theorem record_ops_never_raise (db : DB) (pid tid : String) (fail : Bool) :
    (db.record_playlist_track pid tid fail = db ∨
      db.record_playlist_track pid tid fail =
        { db with playlistTracks := db.playlistTracks ++ [(pid, tid)] }) ∧
    (∀ e, db.insert_playlist_track pid tid fail = Except.error e →
      db.record_playlist_track pid tid fail = db) ∧
    (db.record_genreless_track tid fail = db ∨
      db.record_genreless_track tid fail =
        { db with genrelessTracks := db.genrelessTracks ++ [tid] }) ∧
    (∀ e, db.insert_genreless_track tid fail = Except.error e →
      db.record_genreless_track tid fail = db) := by
  refine ⟨?_, ?_, ?_, ?_⟩
  · cases fail with
    | true => exact Or.inl rfl
    | false =>
      by_cases hc : (pid, tid) ∈ db.playlistTracks
      · exact Or.inl (by simp [DB.record_playlist_track, DB.insert_playlist_track, hc])
      · exact Or.inr (by simp [DB.record_playlist_track, DB.insert_playlist_track, hc])
  · intro e he
    unfold DB.record_playlist_track
    rw [he]
  · cases fail with
    | true => exact Or.inl rfl
    | false =>
      by_cases hc : tid ∈ db.genrelessTracks
      · exact Or.inl (by simp [DB.record_genreless_track, DB.insert_genreless_track, hc])
      · exact Or.inr (by simp [DB.record_genreless_track, DB.insert_genreless_track, hc])
  · intro e he
    unfold DB.record_genreless_track
    rw [he]

/-- C9 witness: a failing insert (the storage-failure oracle set) is
swallowed and leaves the empty ledger unchanged. -/
theorem record_ops_never_raise_witness :
    DB.record_playlist_track DB.empty "p1" "t1" true = DB.empty :=
  (record_ops_never_raise DB.empty "p1" "t1" true).2.1 PyError.storageError rfl

def artistPlain : Artist := { id_ := "ar2", name := "Artist Two", genres := [] }

def albumPlain : Album := { id_ := "al2", name := "Album Two", genres := [] }

def remoteNG : Remote :=
  { artists := [("ar2", artistPlain)], albums := [("al2", albumPlain)],
    playlistIdFor := fun n => "pid-" ++ n }

def rawT2 : RawTrack :=
  { id := some "t2", name := some "Song Two", artists := ["ar2"], album := some "al2" }

def trackB : Track :=
  { id_ := "t2", title := "Song Two", artist := artistPlain, album := albumPlain,
    genres := [] }

def lm0 : LM :=
  { db := DB.empty, playlist_cache := [], artist_cache := [], album_cache := [],
    events := [] }

/-- C6: a saved track whose resolved genre list is empty raises
`NoGenreException`, which the second phase catches: the step records the
track id in the genreless ledger, appends exactly one genreless-record
event and nothing else (no `add_track`, no playlist append, playlist
cache untouched), and the phase continues with the remaining entries —
no exception escapes for this case. -/
theorem genreless_recorded_once (r : Remote) (st : LM) (raw : RawTrack)
    (rest : List RawTrack) (t : Track) (ac : List (String × Artist))
    (alc : List (String × Album))
    (hinit : Track.init r st.artist_cache st.album_cache raw = Except.ok (t, ac, alc))
    (hg : t.genres = []) :
    parse_liked_songs r st (raw :: rest) =
      parse_liked_songs r
        { st with artist_cache := ac, album_cache := alc,
                  db := st.db.record_genreless_track t.id_ false,
                  events := st.events ++ [Event.recordGenreless t.id_] } rest := by
  have hadd :
      add_track_to_playlists r { st with artist_cache := ac, album_cache := alc } t =
        Except.error PyError.noGenre := by
    simp [add_track_to_playlists, hg]
  simp only [parse_liked_songs, hinit, hadd]

/-- C6 witness: the genreless step evaluated on a concrete saved track
whose album and artist genres are both empty, from the initial state. -/
theorem genreless_recorded_once_witness :
    parse_liked_songs remoteNG lm0 [rawT2] =
      parse_liked_songs remoteNG
        { lm0 with artist_cache := [("ar2", artistPlain)],
                   album_cache := [("al2", albumPlain)],
                   db := DB.record_genreless_track DB.empty "t2" false,
                   events := [Event.recordGenreless "t2"] } [] :=
  genreless_recorded_once remoteNG lm0 rawT2 [] trackB
    [("ar2", artistPlain)] [("al2", albumPlain)] rfl rfl

/-- C10: `Track.__init__` is partial at the public interface: a null
track id makes `.strip()` raise AttributeError, an empty artists list
makes `artists[0]` raise IndexError; these occur before the phase's
try-block, are not `NoGenreException`, and so escape
`__parse_liked_songs` and abort the run, while a successful construction
requires a present track id, a present album id and a non-empty artists
list. -/
theorem track_init_preconditions (r : Remote) (st : LM) (raw : RawTrack)
    (rest : List RawTrack) :
    (raw.id = none →
      parse_liked_songs r st (raw :: rest) = (st, some PyError.attributeError)) ∧
    (raw.id.isSome = true → raw.name.isSome = true → raw.artists = [] →
      parse_liked_songs r st (raw :: rest) = (st, some PyError.indexError)) ∧
    (∀ e, Track.init r st.artist_cache st.album_cache raw = Except.error e →
      e ≠ PyError.noGenre) ∧
    (∀ out, Track.init r st.artist_cache st.album_cache raw = Except.ok out →
      raw.id.isSome = true ∧ raw.name.isSome = true ∧
      raw.artists.isEmpty = false ∧ raw.album.isSome = true) := by
  refine ⟨?_, ?_, ?_, ?_⟩
  · intro h
    have hinit : Track.init r st.artist_cache st.album_cache raw =
        Except.error PyError.attributeError := by
      simp [Track.init, h]
    simp [parse_liked_songs, hinit]
  · intro h1 h2 h3
    obtain ⟨rid, hid⟩ := Option.isSome_iff_exists.mp h1
    obtain ⟨rname, hnm⟩ := Option.isSome_iff_exists.mp h2
    have hinit : Track.init r st.artist_cache st.album_cache raw =
        Except.error PyError.indexError := by
      simp [Track.init, hid, hnm, h3]
    simp [parse_liked_songs, hinit]
  · exact track_init_error_not_genreless r st.artist_cache st.album_cache raw
  · intro out h
    have hs := track_init_ok_shape r st.artist_cache st.album_cache raw out h
    exact ⟨hs.1, hs.2.1, hs.2.2.1, hs.2.2.2.1⟩

def rawNoArtists : RawTrack :=
  { id := some "t3", name := some "Song Three", artists := [], album := some "al1" }

/-- C10 witness: a concrete entry with an empty artists list aborts the
saved-track phase with IndexError. -/
theorem track_init_preconditions_witness :
    parse_liked_songs remote0 lm0 [rawNoArtists] =
      (lm0, some PyError.indexError) :=
  (track_init_preconditions remote0 lm0 rawNoArtists []).2.1 rfl rfl rfl

/-- C3: running the whole pipeline twice on the same one-track saved
library (track t1 with artist genre rock and no album genres), the same
empty playlist listing and the same persistent ledger does NOT produce
exactly one remote append containing t1's URN: both runs abort in the
final-flush phase with AttributeError before the buffered batch is ever
sent, so zero append calls contain the URN across both runs and the
ledger never records the pair. -/
theorem pipeline_twice_zero_appends :
    (ListMaker.run remote0 [] [rawT1] DB.empty).2 = some PyError.attributeError ∧
    countAppendsWith (spotify_urn "track" "t1")
      (ListMaker.run remote0 [] [rawT1] DB.empty).1.events = 0 ∧
    (ListMaker.run remote0 [] [rawT1]
      (ListMaker.run remote0 [] [rawT1] DB.empty).1.db).2 =
        some PyError.attributeError ∧
    countAppendsWith (spotify_urn "track" "t1")
      (ListMaker.run remote0 [] [rawT1]
        (ListMaker.run remote0 [] [rawT1] DB.empty).1.db).1.events = 0 := by
  exact ⟨rfl, rfl, rfl, rfl⟩

end SLM
